import Mathlib

/-!
Formal model of the ContentCreatorRAG core: the embedded vector store
(`backend/core/vector_store.py`) and the RAG engine that drives it
(`backend/core/rag_engine.py`).

Numeric values (embeddings, distances, performance scores) are modelled over
`ℚ`.  The FAISS flat index is the list of stored vectors, position `i` in the
list being faiss id `i`; the SQLite `embeddings` table is a list of `Row`s in
insertion order with an autoincrement id counter.  Python dictionaries with
optional keys are modelled as association lists (`List (String × ℚ)`) or as
`Option` fields.  Exceptions raised by the FAISS python bindings (its `add`
and `search` wrappers assert that the vector width equals the configured
index dimension before touching the index) are modelled with `Except`.
-/

namespace VectorStoreModel

/-- One row of the SQLite `embeddings` table.  `metadata` holds the already
serialised JSON string; `created_at` is an abstract timestamp. -/
structure Row where
  id : Nat
  faiss_id : Nat
  user_id : String
  platform : String
  niche : String
  content_type : String
  content : String
  metadata : String
  performance_score : ℚ
  created_at : Nat
deriving DecidableEq, Repr

/-- The optional filters accepted by `VectorStore.search` (the keys the code
looks up in the `filters` dict). -/
structure Filters where
  platform : Option String := none
  niche : Option String := none
  content_type : Option String := none
  min_performance : Option ℚ := none
deriving DecidableEq, Repr

/-- State of a `VectorStore`: the configured dimension, the FAISS flat index
(list of vectors, position = faiss id), the SQLite table rows in insertion
order, and the autoincrement counter for the `id` column (SQLite ids start
at 1). -/
structure VectorStore where
  dimension : Nat
  vectors : List (List ℚ)
  rows : List Row
  next_id : Nat
deriving DecidableEq, Repr

/-- A fresh store as built by `VectorStore.__init__`: empty index, empty
table, autoincrement counter at 1. -/
def VectorStore.init (dimension : Nat := 384) : VectorStore :=
  { dimension := dimension, vectors := [], rows := [], next_id := 1 }

/-- The file system seen by `save_index` / `load_index`: a map from paths to
serialised FAISS indexes (a serialised index is exactly its vector list,
which `faiss.write_index` / `faiss.read_index` round-trip losslessly). -/
def FS : Type := String → Option (List (List ℚ))

/-- `VectorStore.add`: append the embedding to the FAISS index (the FAISS
python wrapper asserts `d == self.d` first, so a wrong-width vector raises
before anything is mutated), then insert the metadata row with
`faiss_id = ntotal - 1` and return `cursor.lastrowid`. -/
def VectorStore.add (st : VectorStore) (user_id content : String)
    (embedding : List ℚ) (platform niche content_type : String)
    (metadata : String) (performance_score : ℚ) :
    Except String (VectorStore × Nat) :=
  if embedding.length ≠ st.dimension then
    .error "AssertionError: d == self.d"
  else
    let faiss_id := st.vectors.length
    let row : Row :=
      { id := st.next_id, faiss_id := faiss_id, user_id := user_id,
        platform := platform, niche := niche, content_type := content_type,
        content := content, metadata := metadata,
        performance_score := performance_score, created_at := 0 }
    .ok ({ st with
            vectors := st.vectors ++ [embedding],
            rows := st.rows ++ [row],
            next_id := st.next_id + 1 },
         st.next_id)

/-- Squared euclidean distance, the metric of `faiss.IndexFlatL2`. -/
def sqDist (a b : List ℚ) : ℚ :=
  (List.zipWith (fun x y => (x - y) * (x - y)) a b).sum

/-- The comparison used by the flat index: ascending distance to the query,
ties broken by ascending faiss id (FAISS scans positions in order). -/
def nearerTo (st : VectorStore) (query : List ℚ) (i j : Nat) : Prop :=
  sqDist (st.vectors.getD i []) query < sqDist (st.vectors.getD j []) query ∨
    (sqDist (st.vectors.getD i []) query = sqDist (st.vectors.getD j []) query ∧
      i ≤ j)

instance (st : VectorStore) (query : List ℚ) :
    DecidableRel (nearerTo st query) := fun i j => by
  unfold nearerTo; infer_instance

/-- The candidate pool built by `VectorStore.search`: the positions returned
by `self.index.search(query_vector, search_k)` with
`search_k = min(top_k * 5, self.index.ntotal)` — the `search_k` nearest
stored vectors, ordered by ascending distance. -/
def VectorStore.searchCandidates (st : VectorStore) (query : List ℚ)
    (top_k : Nat) : List Nat :=
  let search_k := min (top_k * 5) st.vectors.length
  (List.insertionSort (nearerTo st query) (List.range st.vectors.length)).take
    search_k

/-- Whether a row passes the optional SQL filter clauses that `search`
appends for the keys present in the `filters` dict (`platform = ?`,
`niche = ?`, `content_type = ?`, `performance_score >= ?`). -/
def Row.matchesFilters (r : Row) (f : Filters) : Bool :=
  (match f.platform with
   | some p => r.platform == p
   | none => true) &&
  (match f.niche with
   | some n => r.niche == n
   | none => true) &&
  (match f.content_type with
   | some c => r.content_type == c
   | none => true) &&
  (match f.min_performance with
   | some m => decide (m ≤ r.performance_score)
   | none => true)

/-- Descending order on `performance_score`, the `ORDER BY
performance_score DESC` of the SQL query. -/
def scoreGE (a b : Row) : Prop := b.performance_score ≤ a.performance_score

instance : DecidableRel scoreGE := fun a b => by
  unfold scoreGE; infer_instance

/-- `VectorStore.search`: empty index short-circuits to `[]`; otherwise the
FAISS wrapper asserts the query width, the candidate pool is fetched, and
the SQL query selects the owner's rows among the candidate faiss ids (or,
when the candidate list is empty, all of the owner's rows), applies the
optional filter clauses, orders by `performance_score DESC` and truncates
with `LIMIT top_k`. -/
def VectorStore.search (st : VectorStore) (query : List ℚ) (user_id : String)
    (filters : Filters := {}) (top_k : Nat := 10) :
    Except String (List Row) :=
  if st.vectors.length = 0 then
    .ok []
  else if query.length ≠ st.dimension then
    .error "AssertionError: d == self.d"
  else
    let cands := st.searchCandidates query top_k
    let selected :=
      if cands.length > 0 then
        st.rows.filter (fun r => r.user_id == user_id && cands.contains r.faiss_id)
      else
        st.rows.filter (fun r => r.user_id == user_id)
    let filtered := selected.filter (fun r => r.matchesFilters filters)
    .ok ((List.insertionSort scoreGE filtered).take top_k)

/-- `save_index`: write the FAISS index (and only it — the SQLite side lives
elsewhere) to the given path. -/
def VectorStore.save_index (st : VectorStore) (fs : FS)
    (path : String := "data/faiss.index") : FS :=
  fun p => if p = path then some st.vectors else fs p

/-- `load_index`: if the path exists, replace the in-memory FAISS index with
the file's contents; otherwise keep the current (e.g. empty) index.  The
metadata rows are untouched. -/
def VectorStore.load_index (st : VectorStore) (fs : FS)
    (path : String := "data/faiss.index") : VectorStore :=
  match fs path with
  | some vs => { st with vectors := vs }
  | none => st

/-- `count_user_content`: `SELECT COUNT(*) FROM embeddings WHERE user_id = ?`. -/
def VectorStore.count_user_content (st : VectorStore) (user_id : String) : Nat :=
  (st.rows.filter (fun r => r.user_id == user_id)).length

end VectorStoreModel

namespace RAGEngineModel

open VectorStoreModel

/-- One element of the `content_items` batch handed to
`RAGEngine.index_user_content`: a dict with a mandatory `content` key and
optional `platform` / `niche` / `content_type` / `metadata` /
`performance` keys.  `metadata` is kept as its serialised JSON string;
`performance` is the raw engagement-counter dict as an association list. -/
structure ContentItem where
  content : String
  platform : Option String := none
  niche : Option String := none
  content_type : Option String := none
  metadata : Option String := none
  performance : List (String × ℚ) := []
deriving DecidableEq, Repr

/-- `RAGEngine._calculate_performance_score`: an empty performance dict is
falsy, giving the neutral 0.5; otherwise each counter is read with
`.get(key, 0)` and the weighted sum is clamped from above at 1.0. -/
def calculate_performance_score (performance : List (String × ℚ)) : ℚ :=
  if performance = [] then
    0.5
  else
    let views := ((performance.lookup "views").getD 0)
    let likes := ((performance.lookup "likes").getD 0)
    let comments := ((performance.lookup "comments").getD 0)
    let shares := ((performance.lookup "shares").getD 0)
    min 1.0 (views / 100000 * 0.4 + likes / 5000 * 0.3 +
             comments / 500 * 0.2 + shares / 200 * 0.1)

/-- Inner loop of `RAGEngine.index_user_content`: for each (item, embedding)
pair compute the performance score and call `VectorStore.add` with the
item's fields (dict `get`s with defaults `unknown` / `general` / `text` /
`{}` — the serialised empty dict is modelled as the empty string).  The
loop has no try/except: the first exception out of `add` propagates and
aborts the batch, keeping the items already committed. -/
def indexLoop (st : VectorStore) (user_id : String) :
    List (ContentItem × List ℚ) → Nat → VectorStore × Except String Nat
  | [], count => (st, .ok count)
  | (item, emb) :: rest, count =>
    let score := calculate_performance_score item.performance
    match st.add user_id item.content emb (item.platform.getD "unknown")
        (item.niche.getD "general") (item.content_type.getD "text")
        (item.metadata.getD "") score with
    | .error e => (st, .error e)
    | .ok (st', _) => indexLoop st' user_id rest (count + 1)

/-- `RAGEngine.index_user_content`: embed every item's content text, then
add each (item, embedding) pair to the vector store, counting successes.
The embedding provider is an explicit parameter.  The result is the final
store state paired with either the returned count or the propagated
exception. -/
def index_user_content (embedder : String → List ℚ) (st : VectorStore)
    (user_id : String) (content_items : List ContentItem) :
    VectorStore × Except String Nat :=
  indexLoop st user_id
    (content_items.zip (content_items.map (fun i => embedder i.content))) 0

/-- Python truthiness of an optional string argument: `None` and the empty
string are falsy (`if platform:`). -/
def pyTruthy : Option String → Bool
  | none => false
  | some s => s ≠ ""

/-- `RAGEngine.retrieve_context`: embed the query, build the filters dict
from the truthy optional arguments, unconditionally set
`filters['min_performance'] = 0.5`, and search the vector store. -/
def retrieve_context (embedder : String → List ℚ) (st : VectorStore)
    (user_id query : String) (platform : Option String := none)
    (niche : Option String := none) (content_type : Option String := none)
    (top_k : Nat := 10) : Except String (List Row) :=
  let query_embedding := embedder query
  let filters : Filters :=
    { platform := if pyTruthy platform then platform else none,
      niche := if pyTruthy niche then niche else none,
      content_type := if pyTruthy content_type then content_type else none,
      min_performance := some 0.5 }
  st.search query_embedding user_id filters top_k

/-- Reference definition of the performance score, written from the spec's
words: `min(1.0, views/100000*0.4 + likes/5000*0.3 + comments/500*0.2 +
shares/200*0.1)`, missing counters defaulting to 0, and exactly 0.5 when no
performance data is supplied at all.  It is compared with
`calculate_performance_score`, the definition taken from the source. -/
def specPerformanceScore (performance : List (String × ℚ)) : ℚ :=
  if performance = [] then
    0.5
  else
    min 1.0 (((performance.lookup "views").getD 0) / 100000 * 0.4 +
             ((performance.lookup "likes").getD 0) / 5000 * 0.3 +
             ((performance.lookup "comments").getD 0) / 500 * 0.2 +
             ((performance.lookup "shares").getD 0) / 200 * 0.1)

end RAGEngineModel

namespace VectorStoreModel

/-- The paired-store consistency invariant: the FAISS index and the SQLite
table have the same number of entries, every row's `faiss_id` is a valid
position of the index, and no two rows share a position. -/
def Inv (st : VectorStore) : Prop :=
  st.vectors.length = st.rows.length ∧
    (∀ r ∈ st.rows, r.faiss_id < st.vectors.length) ∧
    (st.rows.map Row.faiss_id).Nodup

instance (st : VectorStore) : Decidable (Inv st) := by
  unfold Inv; infer_instance

/-- First row of the three-item scenario: vector `[1, 0]`, score `0.9`. -/
def scenRow1 : Row :=
  { id := 1, faiss_id := 0, user_id := "u1", platform := "p", niche := "n",
    content_type := "t", content := "c1", metadata := "",
    performance_score := 0.9, created_at := 0 }

/-- Second row of the three-item scenario: vector `[0, 1]`, score `0.2`. -/
def scenRow2 : Row :=
  { id := 2, faiss_id := 1, user_id := "u1", platform := "p", niche := "n",
    content_type := "t", content := "c2", metadata := "",
    performance_score := 0.2, created_at := 0 }

/-- Third row of the three-item scenario: vector `[0.9, 0.1]`, score `0.3`. -/
def scenRow3 : Row :=
  { id := 3, faiss_id := 2, user_id := "u1", platform := "p", niche := "n",
    content_type := "t", content := "c3", metadata := "",
    performance_score := 0.3, created_at := 0 }

/-- Scenario store after the first `add`. -/
def scenSt1 : VectorStore :=
  { dimension := 2, vectors := [[1, 0]], rows := [scenRow1], next_id := 2 }

/-- Scenario store after the second `add`. -/
def scenSt2 : VectorStore :=
  { dimension := 2, vectors := [[1, 0], [0, 1]], rows := [scenRow1, scenRow2],
    next_id := 3 }

/-- Scenario store after the third `add`: three items for owner `u1`. -/
def scenSt3 : VectorStore :=
  { dimension := 2, vectors := [[1, 0], [0, 1], [0.9, 0.1]],
    rows := [scenRow1, scenRow2, scenRow3], next_id := 4 }

/-- A store holding a single item that belongs to owner `u2`. -/
def otherOwnerStore : VectorStore :=
  { dimension := 2, vectors := [[0, 0]],
    rows := [{ id := 1, faiss_id := 0, user_id := "u2", platform := "p",
               niche := "n", content_type := "t", content := "c",
               metadata := "", performance_score := 0.5, created_at := 0 }],
    next_id := 2 }

/-- A store holding a single item for owner `u1` (used to exhibit what
`load_index` does to the pairing invariant). -/
def oneRowStore : VectorStore :=
  { dimension := 2, vectors := [[1, 0]],
    rows := [{ id := 1, faiss_id := 0, user_id := "u1", platform := "p",
               niche := "n", content_type := "t", content := "c",
               metadata := "", performance_score := 0.5, created_at := 0 }],
    next_id := 2 }

/-- The empty file system. -/
def emptyFS : FS := fun _ => none

instance : IsTotal Row scoreGE :=
  ⟨fun a b => le_total b.performance_score a.performance_score⟩

instance : IsTrans Row scoreGE :=
  ⟨fun _ _ _ hab hbc => le_trans hbc hab⟩

end VectorStoreModel

namespace Claims

open VectorStoreModel RAGEngineModel

/-- Helper: the value read from an association list whose values are all
nonnegative (with default 0 for a missing key) is nonnegative. -/
theorem lookup_getD_nonneg (p : List (String × ℚ))
    (h : ∀ kv ∈ p, 0 ≤ kv.2) (key : String) :
    0 ≤ (p.lookup key).getD 0 := by
  induction p with
  | nil => simp [List.lookup]
  | cons hd tl ih =>
    obtain ⟨a, b⟩ := hd
    rw [List.lookup]
    rcases hbeq : (key == a) with _ | _
    · simpa using ih (fun kv hkv => h kv (List.mem_cons_of_mem _ hkv))
    · simpa using h (a, b) (List.mem_cons_self _ _)

/-- C1: indexing the three scenario items for owner `u1` into an empty
2-dimensional store and searching with query `[1, 0]`, `top_k = 2` and no
filters returns exactly the `[1, 0]` item (score 0.9) followed by the
`[0.9, 0.1]` item (score 0.3); the `[0, 1]` item (score 0.2) is not
returned. -/
theorem C1_end_to_end_retrieval :
    (VectorStore.init 2).add "u1" "c1" [1, 0] "p" "n" "t" "" 0.9 =
        .ok (scenSt1, 1) ∧
    scenSt1.add "u1" "c2" [0, 1] "p" "n" "t" "" 0.2 = .ok (scenSt2, 2) ∧
    scenSt2.add "u1" "c3" [0.9, 0.1] "p" "n" "t" "" 0.3 = .ok (scenSt3, 3) ∧
    scenSt3.search [1, 0] "u1" {} 2 = .ok [scenRow1, scenRow3] ∧
    scenRow1.performance_score = 0.9 ∧ scenRow3.performance_score = 0.3 ∧
    scenSt3.vectors.getD scenRow1.faiss_id [] = [1, 0] ∧
    scenSt3.vectors.getD scenRow3.faiss_id [] = [0.9, 0.1] ∧
    scenRow2 ∉ [scenRow1, scenRow3] := by
  exact ⟨by with_unfolding_all rfl, by with_unfolding_all rfl,
    by with_unfolding_all rfl, by with_unfolding_all rfl, rfl, rfl,
    by with_unfolding_all rfl, by with_unfolding_all rfl,
    by with_unfolding_all decide⟩

/-- C3: the performance scoring function of the code equals the reference
definition written from the spec, returns 0.5 when no performance data is
supplied, and returns exactly 1.0 (clamped) on
`views = 250000, likes = 0, comments = 0, shares = 0`. -/
theorem C3_performance_score_formula :
    (∀ p : List (String × ℚ),
        calculate_performance_score p = specPerformanceScore p) ∧
    calculate_performance_score [] = 0.5 ∧
    calculate_performance_score
        [("views", 250000), ("likes", 0), ("comments", 0), ("shares", 0)] =
      1.0 := by
  refine ⟨fun p => ?_, rfl, by with_unfolding_all rfl⟩
  unfold calculate_performance_score specPerformanceScore
  rfl

/-- C7: the candidate pool requested from the FAISS index always has width
`min(top_k * 5, ntotal)`. -/
theorem C7_overfetch_width (st : VectorStore) (query : List ℚ) (top_k : Nat) :
    (st.searchCandidates query top_k).length =
      min (top_k * 5) st.vectors.length := by
  unfold VectorStore.searchCandidates
  rw [List.length_take, List.length_insertionSort, List.length_range,
    min_assoc, min_self]

/-- C9: saving the FAISS index and loading it back (even into a store whose
in-memory index was replaced by anything, e.g. a fresh empty index)
restores exactly the saved store, so every subsequent search returns
exactly what it returned before persistence. -/
theorem C9_persistence_round_trip (st : VectorStore) (vs0 : List (List ℚ))
    (fs : FS) (path : String) :
    ({ st with vectors := vs0 }.load_index (st.save_index fs path) path) =
        st ∧
    ∀ (q : List ℚ) (u : String) (f : Filters) (k : Nat),
      ({ st with vectors := vs0 }.load_index (st.save_index fs path)
          path).search q u f k = st.search q u f k := by
  have h : ({ st with vectors := vs0 }.load_index (st.save_index fs path)
      path) = st := by
    simp [VectorStore.load_index, VectorStore.save_index]
  exact ⟨h, fun q u f k => by rw [h]⟩

/-- C2: every successful search returns at most `top_k` rows, ordered by
`performance_score` descending (so a more similar candidate with a lower
score always appears after a less similar candidate with a higher score
whenever both survive the pool and the filters). -/
theorem C2_results_ranked_by_performance (st : VectorStore) (q : List ℚ)
    (u : String) (f : Filters) (k : Nat) (res : List Row)
    (h : st.search q u f k = .ok res) :
    res.length ≤ k ∧
    res.Pairwise (fun a b => b.performance_score ≤ a.performance_score) := by
  simp only [VectorStore.search] at h
  split at h
  · cases h
    simp
  · split at h
    · cases h
    · rw [Except.ok.injEq] at h
      subst h
      constructor
      · exact List.length_take_le _ _
      · exact ((List.sorted_insertionSort scoreGE _).sublist
          (List.take_sublist _ _))

/-- Witness for C2 at the three-item scenario store. -/
theorem C2_results_ranked_by_performance_witness :
    ([scenRow1, scenRow3] : List Row).length ≤ 2 ∧
    ([scenRow1, scenRow3] : List Row).Pairwise
      (fun a b => b.performance_score ≤ a.performance_score) :=
  C2_results_ranked_by_performance scenSt3 [1, 0] "u1" {} 2
    [scenRow1, scenRow3] (by with_unfolding_all rfl)

/-- C10: every row returned by `retrieve_context` has a performance score of
at least 0.5, for every owner, query, optional filters and `top_k` — the
engine always adds the `min_performance = 0.5` filter. -/
theorem C10_retrieve_context_min_performance (embedder : String → List ℚ)
    (st : VectorStore) (u q : String) (pl ni ct : Option String) (k : Nat)
    (res : List Row)
    (h : retrieve_context embedder st u q pl ni ct k = .ok res) :
    ∀ r ∈ res, (0.5 : ℚ) ≤ r.performance_score := by
  intro r hr
  simp only [retrieve_context, VectorStore.search] at h
  split at h
  · cases h
    simp at hr
  · split at h
    · cases h
    · rw [Except.ok.injEq] at h
      subst h
      have h1 : r ∈ _ := List.take_subset _ _ hr
      have h2 := (List.perm_insertionSort scoreGE _).mem_iff.mp h1
      have h3 := List.of_mem_filter h2
      simp only [Row.matchesFilters, Bool.and_eq_true] at h3
      exact of_decide_eq_true h3.2

/-- Witness for C10: retrieving on the scenario store returns only the
0.9-scored row, whose score is at least 0.5. -/
theorem C10_retrieve_context_min_performance_witness :
    (0.5 : ℚ) ≤ scenRow1.performance_score :=
  C10_retrieve_context_min_performance (fun _ => [1, 0]) scenSt3 "u1" "hook"
    none none none 2 [scenRow1] (by with_unfolding_all rfl) scenRow1
    (by simp)

/-- C4 counterexample: a batch with one wrong-dimension item does not make
`index_user_content` return a count that excludes the item (let alone a
failures list with `InvalidInput`): the call returns the propagated
assertion error and no count at all.  The store is left unchanged. -/
theorem C4_wrong_dimension_counterexample :
    (index_user_content (fun _ => [0]) (VectorStore.init 2) "u1"
        [{ content := "c" }]).2 = .error "AssertionError: d == self.d" ∧
    (index_user_content (fun _ => [0]) (VectorStore.init 2) "u1"
        [{ content := "c" }]).1 = VectorStore.init 2 :=
  ⟨by with_unfolding_all rfl, by with_unfolding_all rfl⟩

/-- C4 amended: an item whose embedding has the wrong dimension is rejected
before insertion — the FAISS assertion propagates out of
`index_user_content` as an exception (there is no failures report and no
returned count) and neither the vector index nor the metadata store is
changed by that item. -/
theorem C4_wrong_dimension_amended (embedder : String → List ℚ)
    (st : VectorStore) (u : String) (item : ContentItem)
    (h : (embedder item.content).length ≠ st.dimension) :
    index_user_content embedder st u [item] =
      (st, .error "AssertionError: d == self.d") := by
  simp only [index_user_content, List.map, List.zip, List.zipWith, indexLoop]
  simp [VectorStore.add, h]

/-- Witness for the amended C4 at a concrete wrong-dimension batch. -/
theorem C4_wrong_dimension_amended_witness :
    index_user_content (fun _ => [1]) (VectorStore.init 3) "u9"
        [{ content := "x" }] =
      (VectorStore.init 3, .error "AssertionError: d == self.d") :=
  C4_wrong_dimension_amended (fun _ => [1]) (VectorStore.init 3) "u9"
    { content := "x" } (by with_unfolding_all decide)

/-- C5 counterexample: the pairing invariant is not preserved by every
operation of the core.  Save the empty index, add one item (the invariant
holds), then load the stale file: the index becomes empty while the
metadata row remains, so the invariant is broken. -/
theorem C5_invariant_counterexample :
    (VectorStore.init 2).add "u1" "c" [1, 0] "p" "n" "t" "" 0.5 =
        .ok (oneRowStore, 1) ∧
    Inv oneRowStore ∧
    ¬ Inv (oneRowStore.load_index
        ((VectorStore.init 2).save_index emptyFS "data/faiss.index")
        "data/faiss.index") :=
  ⟨by with_unfolding_all rfl, by with_unfolding_all decide,
    by with_unfolding_all decide⟩

/-- C5 amended: the pairing invariant (index size = row count, every
`faiss_id` a valid distinct position) holds for a fresh store, is
preserved by every successful `add`, and is preserved by `load_index` when
the loaded file is the one just saved from the same store; `search` and
`save_index` do not mutate the store at all. -/
theorem C5_invariant_amended (st : VectorStore) (hinv : Inv st) :
    (∀ (u c : String) (e : List ℚ) (pl ni ct m : String) (s : ℚ)
        (st' : VectorStore) (rid : Nat),
        st.add u c e pl ni ct m s = .ok (st', rid) → Inv st') ∧
    (∀ (fs : FS) (path : String),
      Inv (st.load_index (st.save_index fs path) path)) ∧
    Inv (VectorStore.init st.dimension) := by
  refine ⟨?_, ?_,
    ⟨rfl, by simp [VectorStore.init], by simp [VectorStore.init]⟩⟩
  · intro u c e pl ni ct m s st' rid hadd
    simp only [VectorStore.add] at hadd
    split at hadd
    · cases hadd
    · rw [Except.ok.injEq, Prod.mk.injEq] at hadd
      obtain ⟨hst, -⟩ := hadd
      subst hst
      obtain ⟨h1, h2, h3⟩ := hinv
      refine ⟨by simp [h1], ?_, ?_⟩
      · intro r hr
        simp only [List.mem_append, List.mem_singleton] at hr
        rcases hr with hr | hr
        · have := h2 r hr
          simp only [List.length_append, List.length_singleton]
          omega
        · subst hr
          simp
      · rw [List.map_append]
        refine List.Nodup.append h3 (by simp) ?_
        intro a ha hb
        simp only [List.map_cons, List.map_nil, List.mem_singleton] at hb
        obtain ⟨r, hrmem, hrfid⟩ := List.mem_map.mp ha
        have := h2 r hrmem
        omega
  · intro fs path
    simpa [VectorStore.load_index, VectorStore.save_index] using hinv

/-- Witness for the amended C5: adding the first scenario item to a fresh
store yields a store satisfying the invariant. -/
theorem C5_invariant_amended_witness : Inv scenSt1 :=
  (C5_invariant_amended (VectorStore.init 2)
      (by with_unfolding_all decide)).1
    "u1" "c1" [1, 0] "p" "n" "t" "" 0.9 scenSt1 1 (by with_unfolding_all rfl)

/-- C6 counterexample: the scoring function is not bounded below for
arbitrary counter values — a negative view count drives the score to
-0.4, outside [0, 1]. -/
theorem C6_score_range_counterexample :
    calculate_performance_score [("views", -100000)] = -0.4 ∧
    calculate_performance_score [("views", -100000)] < 0 :=
  ⟨by with_unfolding_all rfl, by with_unfolding_all decide⟩

/-- C6 amended: for every input whose engagement counters are all
nonnegative, the performance score lies in [0, 1]. -/
theorem C6_score_range_amended (p : List (String × ℚ))
    (h : ∀ kv ∈ p, 0 ≤ kv.2) :
    0 ≤ calculate_performance_score p ∧
      calculate_performance_score p ≤ 1 := by
  unfold calculate_performance_score
  split
  · norm_num
  · have hv := lookup_getD_nonneg p h "views"
    have hl := lookup_getD_nonneg p h "likes"
    have hc := lookup_getD_nonneg p h "comments"
    have hs := lookup_getD_nonneg p h "shares"
    have hsum : (0:ℚ) ≤ (p.lookup "views").getD 0 / 100000 * 0.4 +
        (p.lookup "likes").getD 0 / 5000 * 0.3 +
        (p.lookup "comments").getD 0 / 500 * 0.2 +
        (p.lookup "shares").getD 0 / 200 * 0.1 := by
      have t1 : (0:ℚ) ≤ (p.lookup "views").getD 0 / 100000 * 0.4 :=
        mul_nonneg (div_nonneg hv (by norm_num)) (by norm_num)
      have t2 : (0:ℚ) ≤ (p.lookup "likes").getD 0 / 5000 * 0.3 :=
        mul_nonneg (div_nonneg hl (by norm_num)) (by norm_num)
      have t3 : (0:ℚ) ≤ (p.lookup "comments").getD 0 / 500 * 0.2 :=
        mul_nonneg (div_nonneg hc (by norm_num)) (by norm_num)
      have t4 : (0:ℚ) ≤ (p.lookup "shares").getD 0 / 200 * 0.1 :=
        mul_nonneg (div_nonneg hs (by norm_num)) (by norm_num)
      linarith
    exact ⟨le_min (by norm_num) hsum,
      le_trans (min_le_left _ _) (by norm_num)⟩

/-- Witness for the amended C6 at concrete nonnegative counters. -/
theorem C6_score_range_amended_witness :
    0 ≤ calculate_performance_score [("views", 50000), ("likes", 100)] ∧
      calculate_performance_score [("views", 50000), ("likes", 100)] ≤ 1 :=
  C6_score_range_amended [("views", 50000), ("likes", 100)]
    (by with_unfolding_all decide)

/-- C8 counterexample: an owner with zero indexed items does not always get
an empty list — when the global index is non-empty and the query vector
has the wrong dimension, the FAISS assertion raises instead. -/
theorem C8_empty_results_counterexample :
    otherOwnerStore.count_user_content "u1" = 0 ∧
    otherOwnerStore.search [1] "u1" {} 5 =
      .error "AssertionError: d == self.d" :=
  ⟨by with_unfolding_all rfl, by with_unfolding_all rfl⟩

/-- C8 amended: searching an empty index returns the empty list for every
query, filter set and `top_k`; and for an owner with zero indexed items
the search returns the empty list for every dimension-matching query,
filter set and `top_k`. -/
theorem C8_empty_results_amended (st : VectorStore) (q : List ℚ)
    (u : String) (f : Filters) (k : Nat) :
    (st.vectors.length = 0 → st.search q u f k = .ok []) ∧
    (q.length = st.dimension → (∀ r ∈ st.rows, r.user_id ≠ u) →
      st.search q u f k = .ok []) := by
  constructor
  · intro h
    simp [VectorStore.search, h]
  · intro hq hrows
    by_cases h0 : st.vectors.length = 0
    · simp [VectorStore.search, h0]
    · unfold VectorStore.search
      rw [if_neg h0, if_neg (fun hc => hc hq)]
      have hf1 : ∀ (pred : Row → Bool),
          st.rows.filter (fun r => r.user_id == u && pred r) = [] := by
        intro pred
        refine List.filter_eq_nil_iff.mpr (fun r hr => ?_)
        simp [hrows r hr]
      have hf2 : st.rows.filter (fun r => r.user_id == u) = [] := by
        refine List.filter_eq_nil_iff.mpr (fun r hr => ?_)
        simp [hrows r hr]
      simp [hf1, hf2, List.insertionSort]

/-- Witness for the amended C8: a search on a fresh empty store, and a
search by an owner with no items on a store holding someone else's item,
both return the empty list. -/
theorem C8_empty_results_amended_witness :
    (VectorStore.init 2).search [5, 5] "nobody" {} 3 = .ok [] ∧
    otherOwnerStore.search [1, 0] "u1" {} 5 = .ok [] :=
  ⟨(C8_empty_results_amended (VectorStore.init 2) [5, 5] "nobody" {} 3).1
      rfl,
   (C8_empty_results_amended otherOwnerStore [1, 0] "u1" {} 5).2 rfl
      (by with_unfolding_all decide)⟩

end Claims
